import Mathlib

/-!
Verification of the renewable-energy document-analysis pipeline.

This file shallowly embeds the Python sources of the repository:
  app/tools/risk_flagger.py       (RiskFlagger and its check functions)
  app/tools/extract_key_info.py   (ProjectInfo and ProjectInfo.parse_response)
  app/api/endpoints.py            (process_document orchestration)

Modelling conventions:
  * Python strings are Lean `String`; character-level processing goes through
    `List Char` (the underlying data of a `String`).
  * Python floats are modelled as exact fractions (`Frac`); the claims under
    study do not depend on binary floating-point rounding.
  * Fallible Python code (code that can raise) is modelled with `Except`.
    `PyErr` distinguishes the exception classes that matter here.
  * External collaborators (the pypdf/docx loaders, the Anthropic client, the
    web fetcher, `json.loads`, SQLAlchemy) are modelled at their boundary: the
    orchestrator model takes their outcomes as an input record, and
    `parse_response` is parameterized by the JSON reader.
-/

/-- Single-quote character as a string (used inside message literals). -/
def squote : String := String.mk [Char.ofNat 39]

/-- Exact fraction with positive denominator, used to model Python floats.
All constructions in this file keep `den` positive; no gcd normalization is
performed, so all operations reduce inside the Lean kernel.  The claims under
study do not depend on binary floating-point rounding. -/
structure Frac where
  num : Int
  den : Int
  deriving DecidableEq, Repr

/-- Embeds an integer as a fraction. -/
def Frac.ofInt (n : Int) : Frac := ⟨n, 1⟩

instance (n : Nat) : OfNat Frac n := ⟨Frac.ofInt n⟩

/-- Fraction addition (denominators multiply; stays positive). -/
def Frac.add (a b : Frac) : Frac := ⟨a.num * b.den + b.num * a.den, a.den * b.den⟩

/-- Fraction negation. -/
def Frac.neg (a : Frac) : Frac := ⟨-a.num, a.den⟩

/-- Multiplication of a fraction by an integer. -/
def Frac.mulInt (a : Frac) (n : Int) : Frac := ⟨a.num * n, a.den⟩

/-- Fraction division, keeping the denominator positive.  Callers divide only
by nonzero values (the zero check of the source precedes the division). -/
def Frac.div (a b : Frac) : Frac :=
  if b.num < 0 then ⟨-(a.num * b.den), a.den * (-b.num)⟩
  else ⟨a.num * b.den, a.den * b.num⟩

/-- Comparison `a < b` (valid because denominators are positive). -/
def Frac.blt (a b : Frac) : Bool := a.num * b.den < b.num * a.den

/-- Test for zero (valid because denominators are positive). -/
def Frac.isZero (a : Frac) : Bool := a.num == 0

/-- Tests whether the fraction is an exact integer. -/
def Frac.isInt (a : Frac) : Bool := a.num % a.den == 0

/-- The integer value of an integral fraction (floor division otherwise). -/
def Frac.toInt (a : Frac) : Int := a.num.fdiv a.den

/-- Characters treated as whitespace by Python `str.strip` and `\s`. -/
def isPyWs (c : Char) : Bool :=
  c == ' ' || c == '\t' || c == '\n' || c == '\r' || c.toNat == 11 || c.toNat == 12

/-- Strip leading and trailing Python whitespace from a character list. -/
def trimWsChars (l : List Char) : List Char :=
  ((l.dropWhile isPyWs).reverse.dropWhile isPyWs).reverse

/-- Decimal digits to a natural number (left fold, most significant first). -/
def digitsToNat (l : List Char) : Nat :=
  l.foldl (fun a c => 10 * a + (c.toNat - 48)) 0

/-- Python `int(s)` on a string: optional surrounding whitespace, optional
sign, then a non-empty run of decimal digits; anything else raises
`ValueError` (modelled as `none`).  Underscore digit separators are not
modelled; no input in this development uses them. -/
def pyInt? (s : String) : Option Int :=
  let t := trimWsChars s.toList
  let signAndDigits : Int × List Char :=
    match t with
    | '-' :: r => (-1, r)
    | '+' :: r => (1, r)
    | r => (1, r)
  let ds := signAndDigits.2
  if !ds.isEmpty && ds.all Char.isDigit then
    some (signAndDigits.1 * (digitsToNat ds : Int))
  else
    none

/-- Python `float(s)` restricted to strings of digits and dots (which is all
the risk flagger ever feeds it): valid iff there is at least one digit and at
most one dot. -/
def pyFloatDigits? (l : List Char) : Option Frac :=
  if l.all (fun c => c.isDigit || c == '.') &&
     (l.filter (fun c => c == '.')).length ≤ 1 &&
     l.any Char.isDigit then
    let ip := l.takeWhile (fun c => !(c == '.'))
    let fp := (l.dropWhile (fun c => !(c == '.'))).drop 1
    some ⟨(digitsToNat ip : Int) * (10 : Int) ^ fp.length + (digitsToNat fp : Int),
      (10 : Int) ^ fp.length⟩
  else
    none

/-- Python `float(s)` on a general string: surrounding whitespace, optional
sign, then digits and at most one dot (exponent forms are not modelled; no
claim depends on them). -/
def pyFloatLit? (s : String) : Option Frac :=
  let t := trimWsChars s.toList
  match t with
  | '-' :: r => (pyFloatDigits? r).map Frac.neg
  | '+' :: r => pyFloatDigits? r
  | r => pyFloatDigits? r

/-- ASCII lowercase of a string, as Python `str.lower` does on ASCII text. -/
def pyLower (s : String) : String :=
  String.mk (s.toList.map Char.toLower)

/-- Tests whether the list: `listStartsWith h n` : the list `h` starts with the list `n`. -/
def listStartsWith : List Char → List Char → Bool
  | _, [] => true
  | [], _ :: _ => false
  | c :: t, d :: ds => c == d && listStartsWith t ds

/-- Tests substring containment: `listHasSub h n` is Python `n in h` on strings, as character lists. -/
def listHasSub : List Char → List Char → Bool
  | [], n => listStartsWith [] n
  | c :: t, n => listStartsWith (c :: t) n || listHasSub t n

/-- Python truthiness of an optional string (`None` and `""` are falsy). -/
def pyTruthy : Option String → Bool
  | none => false
  | some s => !s.isEmpty

/-- Python truthiness of a list (empty is falsy). -/
def pyTruthyList (l : List String) : Bool :=
  !l.isEmpty

/-- Fixed-point rendering of an integer scaled by `10^k` (digits with a dot
inserted `k` places from the right). -/
def renderFixed (n : Int) (k : Nat) : String :=
  let s := toString n.natAbs
  let s := String.mk (List.replicate (k + 1 - s.length) '0') ++ s
  let ds := s.toList
  (if n < 0 then "-" else "") ++
    String.mk (ds.take (ds.length - k)) ++ "." ++ String.mk (ds.drop (ds.length - k))

/-- Round a fraction to the nearest integer, ties to even (Python rounding).
With positive denominator `d` and floor `f`, the remainder `num - f*d`
compares against `d/2` by cross multiplication. -/
def roundHalfEven (x : Frac) : Int :=
  let f := x.toInt
  let r2 := 2 * (x.num - f * x.den)
  if r2 < x.den then f
  else if x.den < r2 then f + 1
  else if f % 2 == 0 then f else f + 1

/-- Python `str(float)` for the fractions this model produces: exact decimal
expansion when one exists within 17 places, integer values printed with a
trailing `.0`.  The binary shortest-roundtrip repr is approximated; no claim
depends on this rendering. -/
def pyFloatRepr (q : Frac) : String :=
  if q.isInt then toString q.toInt ++ ".0"
  else
    match (List.range 18).find? (fun k => (q.mulInt ((10 : Int) ^ k)).isInt) with
    | some k => renderFixed (q.mulInt ((10 : Int) ^ k)).toInt k
    | none => toString q.num ++ "/" ++ toString q.den

/-- Python `f-string` formatting with three decimal places. -/
def format3 (q : Frac) : String :=
  renderFixed (roundHalfEven (q.mulInt 1000)) 3

/-- Exceptions that the embedded code can raise. -/
inductive PyErr where
  | valueError (msg : String)
  | zeroDivisionError
  deriving DecidableEq, Repr

/-- Python `str(e)` of a `PyErr`. -/
def pyErrMessage : PyErr → String
  | .valueError m => m
  | .zeroDivisionError => "float division by zero"

/-- The pydantic field `term_length_years : Optional[Union[int, str]]`. -/
inductive IntOrStr where
  | i (n : Int)
  | s (v : String)
  deriving DecidableEq, Repr

/-- The pydantic `ProjectInfo` model of `extract_key_info.py`; scalar fields
are optional with default `None`, list fields default to the empty list. -/
structure ProjectInfo where
  project_name : Option String := none
  project_type : Option String := none
  capacity_mw : Option Frac := none
  location_address : Option String := none
  project_area_size : Option String := none
  technology_details : Option String := none
  number_of_units : Option Int := none
  developer_name : Option String := none
  purchaser_or_offtaker : Option String := none
  seller_or_provider : Option String := none
  key_counterparties : List String := []
  agreement_type : Option String := none
  agreement_effective_date : Option String := none
  term_length_years : Option IntOrStr := none
  contract_price_details : Option String := none
  guaranteed_output_or_availability : Option String := none
  liquidated_damages_mention : Option Bool := none
  delivery_point : Option String := none
  environmental_attributes_ownership : Option String := none
  lead_regulatory_agency : Option String := none
  assessment_type : Option String := none
  key_permits_mentioned : List String := []
  key_environmental_concerns : List String := []
  mitigation_mentioned : Option Bool := none
  key_project_dates : List String := []
  deriving DecidableEq, Repr

namespace RiskFlagger

/-- The flag produced by `_check_ppa_term_length` on trigger. -/
def shortTermFlag (n : Int) : String :=
  "SHORT PPA TERM: PPA term length is " ++ toString n ++
    " years, which is below the typical 15-year threshold"

/-- Model of `RiskFlagger._check_ppa_term_length`.  The source computes
`int(str(project_info.term_length_years))` with no exception handler: on an
integer value `str` then `int` is the identity, on a string value it is
Python `int` parsing, which raises `ValueError` on a non-numeric string. -/
def check_ppa_term_length (p : ProjectInfo) : Except PyErr (Option String) :=
  match p.term_length_years with
  | none => .ok none
  | some (.i n) => .ok (if n < 15 then some (shortTermFlag n) else none)
  | some (.s s) =>
    match pyInt? s with
    | none => .error (.valueError ("invalid literal for int() with base 10: " ++ s))
    | some n => .ok (if n < 15 then some (shortTermFlag n) else none)

/-- Model of `RiskFlagger._check_project_size`.  The `try` around the density check
catches only `ValueError` (unparseable area string); the division
`capacity / area_value` raises an uncaught `ZeroDivisionError` when the area
parses to zero. -/
def check_project_size (p : ProjectInfo) : Except PyErr (List String) :=
  match p.capacity_mw with
  | none => .ok []
  | some capacity =>
    let flags :=
      if capacity.blt 5 then
        ["SMALL PROJECT: Project capacity is only " ++ pyFloatRepr capacity ++
          " MW, which may affect economies of scale and project viability"]
      else if capacity.blt 20 then
        ["MEDIUM-SMALL PROJECT: Project capacity is " ++ pyFloatRepr capacity ++
          " MW, which may have higher per-MW costs"]
      else if Frac.blt 500 capacity then
        ["LARGE PROJECT: Project capacity is " ++ pyFloatRepr capacity ++
          " MW, which may have grid integration and interconnection challenges"]
      else []
    if pyTruthy p.project_area_size then
      let area_str := pyLower (p.project_area_size.getD "")
      match pyFloatDigits? (area_str.toList.filter (fun c => c.isDigit || c == '.')) with
      | none => .ok flags
      | some area_value =>
        if listHasSub area_str.toList ("acre".toList) then
          if area_value.isZero then .error .zeroDivisionError
          else
            let density := capacity.div area_value
            if density.blt ⟨4, 1000⟩ then
              .ok (flags ++
                ["LOW DENSITY: Project density is " ++ format3 density ++
                  " MW/acre, which may indicate land use inefficiency"])
            else .ok flags
        else .ok flags
    else .ok flags

/-- The eight `(field, description)` pairs of `_check_missing_critical_info`,
as an enumeration. -/
inductive CriticalField where
  | projectName
  | projectType
  | capacityMw
  | locationAddress
  | developerName
  | purchaserOrOfftaker
  | agreementType
  | termLengthYears
  deriving DecidableEq, Repr

/-- The `critical_fields` list, in source order. -/
def criticalFields : List CriticalField :=
  [.projectName, .projectType, .capacityMw, .locationAddress,
   .developerName, .purchaserOrOfftaker, .agreementType, .termLengthYears]

/-- The description half of each `critical_fields` pair. -/
def criticalDescription : CriticalField → String
  | .projectName => "Project name"
  | .projectType => "Project type"
  | .capacityMw => "Project capacity"
  | .locationAddress => "Project location"
  | .developerName => "Developer information"
  | .purchaserOrOfftaker => "Offtaker information"
  | .agreementType => "Agreement type"
  | .termLengthYears => "PPA term length"

/-- Python `getattr(project_info, field) is None` for each critical field. -/
def criticalIsNone (p : ProjectInfo) : CriticalField → Bool
  | .projectName => p.project_name.isNone
  | .projectType => p.project_type.isNone
  | .capacityMw => p.capacity_mw.isNone
  | .locationAddress => p.location_address.isNone
  | .developerName => p.developer_name.isNone
  | .purchaserOrOfftaker => p.purchaser_or_offtaker.isNone
  | .agreementType => p.agreement_type.isNone
  | .termLengthYears => p.term_length_years.isNone

/-- The flag appended for a missing critical field. -/
def missingFlag (f : CriticalField) : String :=
  "MISSING INFO: " ++ criticalDescription f ++ " is not specified"

/-- Model of `RiskFlagger._check_missing_critical_info`: one flag per critical field
whose value `is None`, in the order of `critical_fields`. -/
def check_missing_critical_info (p : ProjectInfo) : List String :=
  criticalFields.filterMap
    (fun f => if criticalIsNone p f then some (missingFlag f) else none)

/-- Model of `RiskFlagger._check_environmental_risks`. -/
def check_environmental_risks (p : ProjectInfo) : List String :=
  let concernFlags :=
    if pyTruthyList p.key_environmental_concerns then
      (p.key_environmental_concerns.map (fun c => "ENVIRONMENTAL CONCERN: " ++ c)) ++
        (if p.mitigation_mentioned == some false then
          ["HIGH RISK - NO MITIGATION: Environmental concerns exist but mitigation measures are not mentioned"]
        else [])
    else []
  let permitFlags :=
    if pyTruthyList p.key_permits_mentioned then []
    else ["PERMITTING RISK: No specific permits or approvals are mentioned"]
  let agencyFlags :=
    if pyTruthy p.lead_regulatory_agency then []
    else ["REGULATORY RISK: Lead regulatory agency is not identified"]
  concernFlags ++ permitFlags ++ agencyFlags

/-- Model of `RiskFlagger._check_contract_risks`. -/
def check_contract_risks (p : ProjectInfo) : List String :=
  let liqFlags :=
    if p.liquidated_damages_mention == some false then
      ["CONTRACT RISK: Liquidated damages provisions are not mentioned, which may affect project" ++
        squote ++ "s risk allocation"]
    else []
  let recFlags :=
    if !pyTruthy p.environmental_attributes_ownership then
      ["UNCLEAR REC OWNERSHIP: Environmental attributes (RECs) ownership is not specified"]
    else if listHasSub (pyLower (p.environmental_attributes_ownership.getD "")).toList
        ("seller".toList) then
      ["REC OWNERSHIP NOTE: Seller retains environmental attributes, which may affect project economics"]
    else []
  let perfFlags :=
    if !pyTruthy p.guaranteed_output_or_availability then
      ["PERFORMANCE RISK: No guaranteed output or availability metrics specified"]
    else []
  let delivFlags :=
    if !pyTruthy p.delivery_point then
      ["DELIVERY RISK: Power delivery point is not specified"]
    else []
  liqFlags ++ recFlags ++ perfFlags ++ delivFlags

/-- Model of `RiskFlagger.analyze_project`: `None` input short-circuits to `[]`
(a pydantic model instance is always truthy); otherwise the five checks run
in definition order and their flags are concatenated.  Exceptions raised by
the first two checks propagate to the caller. -/
def analyze_project (op : Option ProjectInfo) : Except PyErr (List String) :=
  match op with
  | none => .ok []
  | some p => do
    let ppaFlag ← check_ppa_term_length p
    let sizeFlags ← check_project_size p
    .ok (ppaFlag.toList ++ sizeFlags ++ check_missing_critical_info p ++
      check_environmental_risks p ++ check_contract_risks p)

end RiskFlagger

/-! ## `extract_key_info.py`: `ProjectInfo.parse_response`

`json.loads` is Python standard library, external to this repository; the
caller logic of `parse_response` is modelled exactly and parameterized by the
JSON reader `jloads`, which consumes the preprocessed character list and
returns a JSON value (or `none` for a parse failure, which Python reports by
raising `JSONDecodeError`). -/

/-- A Python/JSON value as produced by `json.loads`. -/
inductive Json where
  | null
  | bool (b : Bool)
  | num (q : Frac)
  | str (s : String)
  | arr (elems : List Json)
  | obj (fields : List (String × Json))

/-- Dictionary lookup.  `json.loads` produces a dict, whose keys are unique,
so first-match lookup agrees with Python dict indexing. -/
def lookupKey (kvs : List (String × Json)) (k : String) : Option Json :=
  (kvs.find? (fun kv => kv.1 == k)).map (fun kv => kv.2)

/-- Python `data.setdefault(k, v)`: add the binding only when the key is absent. -/
def setDefaultKey (kvs : List (String × Json)) (k : String) (v : Json) :
    List (String × Json) :=
  if (lookupKey kvs k).isSome then kvs else kvs ++ [(k, v)]

/-- The four `data.setdefault(..., [])` calls of `parse_response`. -/
def applyListDefaults (kvs : List (String × Json)) : List (String × Json) :=
  setDefaultKey
    (setDefaultKey
      (setDefaultKey
        (setDefaultKey kvs "key_counterparties" (.arr []))
        "key_permits_mentioned" (.arr []))
      "key_environmental_concerns" (.arr []))
    "key_project_dates" (.arr [])

/-- pydantic validation of an `Optional[str]` field (missing and JSON null
give `None`; pydantic v2 does not coerce numbers to strings). -/
def vOptStr : Option Json → Except Unit (Option String)
  | none => .ok none
  | some .null => .ok none
  | some (.str s) => .ok (some s)
  | some _ => .error ()

/-- pydantic validation of an `Optional[float]` field (lax mode coerces
numeric strings). -/
def vOptRat : Option Json → Except Unit (Option Frac)
  | none => .ok none
  | some .null => .ok none
  | some (.num q) => .ok (some q)
  | some (.str s) =>
    match pyFloatLit? s with
    | some q => .ok (some q)
    | none => .error ()
  | some _ => .error ()

/-- pydantic validation of an `Optional[int]` field (lax mode accepts
integral numbers and integer strings). -/
def vOptInt : Option Json → Except Unit (Option Int)
  | none => .ok none
  | some .null => .ok none
  | some (.num q) => if q.isInt then .ok (some q.toInt) else .error ()
  | some (.str s) =>
    match pyInt? s with
    | some n => .ok (some n)
    | none => .error ()
  | some _ => .error ()

/-- pydantic validation of an `Optional[bool]` field (the lax string and
number coercions are not modelled; no claim depends on them). -/
def vOptBool : Option Json → Except Unit (Option Bool)
  | none => .ok none
  | some .null => .ok none
  | some (.bool b) => .ok (some b)
  | some _ => .error ()

/-- pydantic validation of a `List[str]` field: a missing key takes the
`default_factory=list` default, JSON null is a validation error (not an
empty list), and every element must be a string. -/
def vListStr : Option Json → Except Unit (List String)
  | none => .ok []
  | some (.arr es) =>
    es.mapM (fun j => match j with | .str s => Except.ok s | _ => Except.error ())
  | some _ => .error ()

/-- pydantic validation of `Optional[Union[int, str]]` (smart union: an
integral number goes to the `int` member, a string to the `str` member). -/
def vTerm : Option Json → Except Unit (Option IntOrStr)
  | none => .ok none
  | some .null => .ok none
  | some (.num q) => if q.isInt then .ok (some (.i q.toInt)) else .error ()
  | some (.str s) => .ok (some (.s s))
  | some _ => .error ()

/-- Python `cls(**data)`: validate every field of the keyword dictionary.  A single
25-way match keeps the success case primitive; any field failure collapses to
one validation error, which is all `parse_response` ever observes (field
order of error reporting is irrelevant because the caller catches every
exception). -/
def buildProjectInfo (kvs : List (String × Json)) : Except Unit ProjectInfo :=
  match vOptStr (lookupKey kvs "project_name"),
      vOptStr (lookupKey kvs "project_type"),
      vOptRat (lookupKey kvs "capacity_mw"),
      vOptStr (lookupKey kvs "location_address"),
      vOptStr (lookupKey kvs "project_area_size"),
      vOptStr (lookupKey kvs "technology_details"),
      vOptInt (lookupKey kvs "number_of_units"),
      vOptStr (lookupKey kvs "developer_name"),
      vOptStr (lookupKey kvs "purchaser_or_offtaker"),
      vOptStr (lookupKey kvs "seller_or_provider"),
      vListStr (lookupKey kvs "key_counterparties"),
      vOptStr (lookupKey kvs "agreement_type"),
      vOptStr (lookupKey kvs "agreement_effective_date"),
      vTerm (lookupKey kvs "term_length_years"),
      vOptStr (lookupKey kvs "contract_price_details"),
      vOptStr (lookupKey kvs "guaranteed_output_or_availability"),
      vOptBool (lookupKey kvs "liquidated_damages_mention"),
      vOptStr (lookupKey kvs "delivery_point"),
      vOptStr (lookupKey kvs "environmental_attributes_ownership"),
      vOptStr (lookupKey kvs "lead_regulatory_agency"),
      vOptStr (lookupKey kvs "assessment_type"),
      vListStr (lookupKey kvs "key_permits_mentioned"),
      vListStr (lookupKey kvs "key_environmental_concerns"),
      vOptBool (lookupKey kvs "mitigation_mentioned"),
      vListStr (lookupKey kvs "key_project_dates") with
  | .ok a1, .ok a2, .ok a3, .ok a4, .ok a5, .ok a6, .ok a7, .ok a8, .ok a9,
    .ok a10, .ok a11, .ok a12, .ok a13, .ok a14, .ok a15, .ok a16, .ok a17,
    .ok a18, .ok a19, .ok a20, .ok a21, .ok a22, .ok a23, .ok a24, .ok a25 =>
    .ok { project_name := a1, project_type := a2, capacity_mw := a3,
          location_address := a4, project_area_size := a5,
          technology_details := a6, number_of_units := a7,
          developer_name := a8, purchaser_or_offtaker := a9,
          seller_or_provider := a10, key_counterparties := a11,
          agreement_type := a12, agreement_effective_date := a13,
          term_length_years := a14, contract_price_details := a15,
          guaranteed_output_or_availability := a16,
          liquidated_damages_mention := a17, delivery_point := a18,
          environmental_attributes_ownership := a19,
          lead_regulatory_agency := a20, assessment_type := a21,
          key_permits_mentioned := a22, key_environmental_concerns := a23,
          mitigation_mentioned := a24, key_project_dates := a25 }
  | _, _, _, _, _, _, _, _, _, _, _, _, _, _, _, _, _, _, _, _, _, _, _, _, _ =>
    .error ()

/-- Python `content[content.find(chr(123)):] if chr(123) in content else content`:
drop everything before the first opening brace. -/
def sliceFromFirstBrace (l : List Char) : List Char :=
  if Char.ofNat 123 ∈ l then l.dropWhile (fun c => !(c == Char.ofNat 123)) else l

/-- Python `content[:content.rfind(chr(125))+1] if chr(125) in content else content`:
keep everything up to and including the last closing brace. -/
def sliceToLastBrace (l : List Char) : List Char :=
  if Char.ofNat 125 ∈ l then
    (l.reverse.dropWhile (fun c => !(c == Char.ofNat 125))).reverse
  else l

/-- The control characters removed by the cleaning regex
`[\x00-\x08\x0B\x0C\x0E-\x1F\x7F]`. -/
def isStrippedCtrl (c : Char) : Bool :=
  c.toNat ≤ 8 || c.toNat == 11 || c.toNat == 12 ||
    (14 ≤ c.toNat && c.toNat ≤ 31) || c.toNat == 127

/-- The `re.sub` cleaning pass removing the control characters. -/
def stripCtrl (l : List Char) : List Char :=
  l.filter (fun c => !(isStrippedCtrl c))

/-- Helper for whitespace normalization: the flag records whether the
previous character was whitespace (already emitted as one space). -/
def normWsGo : List Char → Bool → List Char
  | [], _ => []
  | c :: t, prevWs =>
    if isPyWs c then
      if prevWs then normWsGo t true else ' ' :: normWsGo t true
    else c :: normWsGo t false

/-- The `re.sub` pass replacing every whitespace run with a single space. -/
def normWs (l : List Char) : List Char :=
  normWsGo l false

/-- The preprocessing pipeline of `parse_response`: brace slicing, control
character cleaning, whitespace normalization, in source order. -/
def preprocessContent (l : List Char) : List Char :=
  normWs (stripCtrl (sliceToLastBrace (sliceFromFirstBrace l)))

/-- Model of `ProjectInfo.parse_response`: preprocess the response text, read it as
JSON, default the four list fields, validate.  The enclosing
`try/except Exception` turns every failure mode (no JSON object, a non-dict
value, a validation error) into the default `ProjectInfo()`. -/
def ProjectInfo.parse_response (jloads : List Char → Option Json)
    (content : List Char) : ProjectInfo :=
  match jloads (preprocessContent content) with
  | some (Json.obj kvs) =>
    match buildProjectInfo (applyListDefaults kvs) with
    | .ok p => p
    | .error _ => {}
  | some _ => {}
  | none => {}

/-! ## `app/api/endpoints.py`: the `process_document` orchestrator

The four network/IO stage boundaries (document loading, fact extraction,
summarization, the two entity fetches) are external collaborators; the
orchestrator model takes their outcomes as inputs (`StageOutcomes`) and
computes the final database record, the final task-cache entry, and the
ordered trace of database commits and cache writes.  Constructor failures of
the LLM clients (missing API key) and database faults are outside the model:
the analysis covers runs in which the result store behaves as the spec
assumes. -/

/-- The pydantic `DocumentSummary` model of `document_summarizer.py`.  Note
that it has no `content` field. -/
structure DocumentSummary where
  executive_summary : String := ""
  key_highlights : List (String × String) := []
  risks_and_considerations : List String := []
  next_steps : List String := []

/-- Outcomes of the external stage boundaries for one submission.  Each
`Except.error` carries `str(e)` of the exception observed at that boundary. -/
structure StageOutcomes where
  loadResult : Except String String
  extractResult : Except String ProjectInfo
  summarizeResult : Except String DocumentSummary
  fetchDev : Except String (Option String)
  fetchOff : Except String (Option String)

/-- The `DocumentAnalysis` database record, restricted to the columns the
claims mention.  The `setattr` loop of `process_document` copies all 25
`ProjectInfo` columns at once, so the copied facts are modelled as one
optional `ProjectInfo` (`none` = the columns were never populated). -/
structure AnalysisRecord where
  processing_status : String := "Processing"
  processing_notes : Option String := none
  extracted_text_preview : Option String := none
  factsFields : Option ProjectInfo := none
  summary : Option String := none
  risk_flags : Option (List String) := none
  developer_external_summary : Option String := none
  offtaker_external_summary : Option String := none
  deriving Repr

/-- One party entry of the `external_info` payload. -/
structure PartyInfo where
  name : Option String
  summary : Option String
  deriving Repr

/-- The `external_info` field of the task payload: the empty dict, or a dict
with `developer` and `offtaker` entries that may each be `None`. -/
inductive ExternalInfo where
  | emptyDict
  | entries (dev : Option PartyInfo) (off : Option PartyInfo)
  deriving Repr

/-- A `TASKS[task_id]` payload.  Optional fields model dictionary keys that a
given write leaves absent. -/
structure TaskEntry where
  status : String
  message : Option String := none
  project_info : Option ProjectInfo := none
  summaryContent : Option String := none
  risk_flags : List String := []
  processing_notes : Option String := none
  external_info : ExternalInfo := .emptyDict
  deriving Repr

/-- An observable side effect of `process_document`, in program order. -/
inductive Event where
  | commitRecord (r : AnalysisRecord)
  | setTask (t : TaskEntry)
  deriving Repr

/-- The value of `process_document`: final record, final task entry, and the
ordered trace of commits and cache writes. -/
structure ProcessResult where
  record : AnalysisRecord
  task : TaskEntry
  trace : List Event

/-- Python `extracted_text[:500] + "..." if len(extracted_text) > 500 else ...`. -/
def previewOf (text : String) : String :=
  if 500 < text.length then text.take 500 ++ "..." else text

/-- The entity-research block (lines 101-116): a single `try` wraps both
fetches, so a failure of the developer fetch also skips the offtaker fetch.
Returns the two summary columns and the appended error notes. -/
def fetchStage (o : StageOutcomes) (pi : ProjectInfo) :
    Option String × Option String × List String :=
  if pyTruthy pi.developer_name then
    match o.fetchDev with
    | .error e => (none, none, ["Error fetching external info: " ++ e])
    | .ok ds =>
      if pyTruthy pi.purchaser_or_offtaker then
        match o.fetchOff with
        | .error e => (ds, none, ["Error fetching external info: " ++ e])
        | .ok os => (ds, os, [])
      else (ds, none, [])
  else
    if pyTruthy pi.purchaser_or_offtaker then
      match o.fetchOff with
      | .error e => (none, none, ["Error fetching external info: " ++ e])
      | .ok os => (none, os, [])
    else (none, none, [])

/-- The stage-note and flag-list result of the rule-evaluation stage
(lines 69-75): run only when facts were extracted, with its own failure
boundary converting an engine exception into a note. -/
def riskStage (piOpt : Option ProjectInfo) : List String × List String :=
  match piOpt with
  | none => ([], [])
  | some pi =>
    match RiskFlagger.analyze_project (some pi) with
    | .ok l => (l, [])
    | .error err => ([], ["Error analyzing risks: " ++ pyErrMessage err])

/-- The summarization stage at the orchestrator boundary (lines 62-67).
When `summarize` itself fails its message is recorded; when it succeeds the
orchestrator reads `doc_summary.content`, an attribute `DocumentSummary`
does not define, so pydantic raises `AttributeError` and the stage records
an error on every run.  Either way `summary` stays `None`. -/
def summaryStageErrs (o : StageOutcomes) : List String :=
  match o.summarizeResult with
  | .error e => ["Error generating summary: " ++ e]
  | .ok _ =>
    ["Error generating summary: " ++
      (squote ++ "DocumentSummary" ++ squote ++ " object has no attribute " ++
        squote ++ "content" ++ squote)]

/-- Model of `process_document` of `endpoints.py`, as a function of the stage
outcomes. -/
def process_document (o : StageOutcomes) : ProcessResult :=
  let r0 : AnalysisRecord := {}
  let t0 : TaskEntry := { status := "processing" }
  match o.loadResult with
  | .error e =>
    let msg := "Failed to load document: " ++ e
    let r1 : AnalysisRecord :=
      { r0 with
        processing_status := "Failed"
        processing_notes := some msg }
    let t1 : TaskEntry :=
      { status := "error"
        message := some msg
        project_info := none
        summaryContent := some ""
        risk_flags := []
        processing_notes := some msg
        external_info := .emptyDict }
    ⟨r1, t1, [.commitRecord r0, .setTask t0, .commitRecord r1, .setTask t1]⟩
  | .ok text =>
    let r1 := { r0 with extracted_text_preview := some (previewOf text) }
    let piOpt := o.extractResult.toOption
    let extractErrs :=
      match o.extractResult with
      | .ok _ => []
      | .error e => ["Error extracting information: " ++ e]
    let summaryVal : Option String := none
    let (riskFlags, riskErrs) := riskStage piOpt
    let errsAtStatus := extractErrs ++ summaryStageErrs o ++ riskErrs
    let status := if errsAtStatus.isEmpty then "Completed" else "Partial"
    let notes :=
      if errsAtStatus.isEmpty then "Completed successfully"
      else String.intercalate "; " errsAtStatus
    let r2 :=
      { r1 with
        processing_status := status
        processing_notes := some notes
        summary := summaryVal
        risk_flags := some riskFlags }
    let (devS, offS, fetchErrs) :=
      match piOpt with
      | none => (none, none, [])
      | some pi => fetchStage o pi
    let r3 :=
      { r2 with
        factsFields := piOpt
        developer_external_summary := devS
        offtaker_external_summary := offS }
    let allErrs := errsAtStatus ++ fetchErrs
    let recDev := match piOpt with | some pi => pi.developer_name | none => none
    let recOff := match piOpt with | some pi => pi.purchaser_or_offtaker | none => none
    let tFinal : TaskEntry :=
      { status := if allErrs.isEmpty then "completed" else "partial"
        message := none
        project_info := piOpt
        summaryContent := some (match summaryVal with | some s => s | none => "")
        risk_flags := riskFlags
        processing_notes := some notes
        external_info :=
          if pyTruthy recDev || pyTruthy recOff then
            .entries
              (if pyTruthy recDev then some ⟨recDev, devS⟩ else none)
              (if pyTruthy recOff then some ⟨recOff, offS⟩ else none)
          else .emptyDict }
    ⟨r3, tFinal, [.commitRecord r0, .setTask t0, .commitRecord r3, .setTask tFinal]⟩

/-! ## Shared helper lemmas -/

/-- Helper: the do-chain of `analyze_project` decomposes into the five checks
in definition order whenever the two fallible checks succeed. -/
theorem analyze_project_decompose (p : ProjectInfo) (t : Option String)
    (s : List String) (h1 : RiskFlagger.check_ppa_term_length p = .ok t)
    (h2 : RiskFlagger.check_project_size p = .ok s) :
    RiskFlagger.analyze_project (some p) =
      .ok (t.toList ++ s ++ RiskFlagger.check_missing_critical_info p ++
        RiskFlagger.check_environmental_risks p ++
        RiskFlagger.check_contract_risks p) := by
  simp [RiskFlagger.analyze_project, h1, h2, Bind.bind, Except.bind]

/-- Helper: the flag strings of the missing-info check are pairwise
distinct. -/
theorem missingFlag_inj (f g : RiskFlagger.CriticalField)
    (h : RiskFlagger.missingFlag f = RiskFlagger.missingFlag g) : f = g := by
  revert h
  cases f <;> cases g <;> decide

/-! ## Claim C1 -/

/-- Facts object whose term length is the non-numeric string that the
pydantic field documentation itself gives as an example value. -/
def pBadTerm : ProjectInfo :=
  { term_length_years := some (.s "twenty (20) years") }

/-- Facts object whose area string parses to zero for the density division. -/
def pZeroArea : ProjectInfo :=
  { capacity_mw := some 100, project_area_size := some "0 acres" }

/-- C1: the claim that `RiskFlagger.analyze_project` is total and never
raises is FALSE on the code: a non-numeric `term_length_years` string makes
`int(str(...))` raise `ValueError` (there is no handler in
`_check_ppa_term_length`), and a `project_area_size` that parses to zero
makes the density division raise `ZeroDivisionError` (the handler in
`_check_project_size` catches only `ValueError`).  The spec and the field
documentation make totality the clear intent, so this is a code bug. -/
theorem c1_analyze_project_raises :
    RiskFlagger.analyze_project (some pBadTerm) =
      .error (.valueError "invalid literal for int() with base 10: twenty (20) years") ∧
    RiskFlagger.analyze_project (some pZeroArea) = .error .zeroDivisionError :=
  ⟨rfl, rfl⟩

/-! ## Claim C4 -/

/-- Facts object with a non-PPA agreement type and a short term length. -/
def pLease : ProjectInfo :=
  { agreement_type := some "Lease Agreement", term_length_years := some (.i 10) }

/-- C4 counterexample: the claim is FALSE on the code.  `pLease` has an
`agreement_type` that does not contain the substring "ppa"
(case-insensitively), yet the short-term-length check fires:
`_check_ppa_term_length` never consults `agreement_type`. -/
theorem c4_counterexample_non_ppa_short_term :
    listHasSub (pyLower "Lease Agreement").toList ("ppa".toList) = false ∧
    ∃ l, RiskFlagger.analyze_project (some pLease) = .ok l ∧
      RiskFlagger.shortTermFlag 10 ∈ l := by
  refine ⟨by decide, ⟨_, rfl, by decide⟩⟩

/-- C4 amended: the short-term-length check is gated only on
`term_length_years` being present; whenever the term parses below 15 the
flag fires regardless of the value of `agreement_type` (the facts object
`p` is arbitrary, so in particular its agreement type is arbitrary). -/
theorem c4_short_term_ungated_by_agreement_type (p : ProjectInfo) (n : Int)
    (s : List String) (hterm : p.term_length_years = some (.i n))
    (hlt : n < 15) (hs : RiskFlagger.check_project_size p = .ok s) :
    ∃ l, RiskFlagger.analyze_project (some p) = .ok l ∧
      RiskFlagger.shortTermFlag n ∈ l := by
  have h1 : RiskFlagger.check_ppa_term_length p =
      .ok (some (RiskFlagger.shortTermFlag n)) := by
    simp [RiskFlagger.check_ppa_term_length, hterm, hlt]
  exact ⟨_, analyze_project_decompose p (some (RiskFlagger.shortTermFlag n)) s h1 hs,
    by simp⟩

/-- C4 amended witness: the amended statement evaluated on `pLease`. -/
theorem c4_short_term_ungated_witness :
    ∃ l, RiskFlagger.analyze_project (some pLease) = .ok l ∧
      RiskFlagger.shortTermFlag 10 ∈ l :=
  c4_short_term_ungated_by_agreement_type pLease 10 [] rfl (by decide) rfl

/-! ## Claim C6 -/

/-- C6: rule evaluation is deterministic and produces flags in the fixed
definition order: term-length check, then size/density, then missing-info,
then environmental, then contract checks.  The embedding is a pure function,
so two calls on the same input are definitionally equal (this also covers
the inputs of C1 on which evaluation raises: both calls raise the same
error); this theorem pins the output order on every input where evaluation
returns. -/
theorem c6_analyze_project_definition_order (p : ProjectInfo)
    (t : Option String) (s : List String)
    (h1 : RiskFlagger.check_ppa_term_length p = .ok t)
    (h2 : RiskFlagger.check_project_size p = .ok s) :
    RiskFlagger.analyze_project (some p) =
      .ok (t.toList ++ s ++ RiskFlagger.check_missing_critical_info p ++
        RiskFlagger.check_environmental_risks p ++
        RiskFlagger.check_contract_risks p) ∧
    RiskFlagger.analyze_project (some p) = RiskFlagger.analyze_project (some p) :=
  ⟨analyze_project_decompose p t s h1 h2, rfl⟩

/-- C6 witness: the order statement evaluated on the empty facts object. -/
theorem c6_definition_order_witness :
    RiskFlagger.analyze_project (some {}) =
      .ok ((none : Option String).toList ++ [] ++
        RiskFlagger.check_missing_critical_info {} ++
        RiskFlagger.check_environmental_risks {} ++
        RiskFlagger.check_contract_risks {}) ∧
    RiskFlagger.analyze_project (some {}) = RiskFlagger.analyze_project (some {}) :=
  c6_analyze_project_definition_order {} none [] rfl rfl

/-! ## Claim C7 -/

/-- C7: for every facts object, the missing-info flag of a critical field is
produced exactly when that field `is None`.  In particular a field whose
value is absent does trigger, and a field holding any present value does not
trigger; the test is identity with `None`, never Python falsiness, so a
present boolean `false` can never count as missing (the boolean fields of
`ProjectInfo` are consumed only by `is False` checks, lines 76 and 95 of
`risk_flagger.py`, never by a missing-info check). -/
theorem c7_missing_check_iff_is_none (p : ProjectInfo)
    (f : RiskFlagger.CriticalField) :
    RiskFlagger.missingFlag f ∈ RiskFlagger.check_missing_critical_info p ↔
      RiskFlagger.criticalIsNone p f = true := by
  unfold RiskFlagger.check_missing_critical_info
  rw [List.mem_filterMap]
  constructor
  · rintro ⟨g, -, hg⟩
    by_cases hc : RiskFlagger.criticalIsNone p g
    · rw [if_pos hc] at hg
      obtain rfl := missingFlag_inj g f (Option.some.inj hg)
      exact hc
    · rw [if_neg hc] at hg
      exact Option.noConfusion hg
  · intro hnone
    refine ⟨f, ?_, by rw [if_pos hnone]⟩
    cases f <;> decide

/-! ## Pipeline claims: supporting definitions -/

/-- A string is a stage warning when it is one of the four per-stage error
notes the orchestrator can append. -/
def stageWarning (x : String) : Prop :=
  (∃ e, x = "Error extracting information: " ++ e) ∨
  (∃ e, x = "Error generating summary: " ++ e) ∨
  (∃ e, x = "Error analyzing risks: " ++ e) ∨
  (∃ e, x = "Error fetching external info: " ++ e)

/-- Consistency of `status` and `notes` on the finished record of a run, as
claim C3 states it. -/
def recordConsistent (o : StageOutcomes) : Prop :=
  let r := (process_document o).record
  (r.processing_status = "Completed" → r.processing_notes = some "") ∧
  (r.processing_status = "Partial" →
    ∃ l, l ≠ [] ∧ (∀ x ∈ l, stageWarning x) ∧
      r.processing_notes = some (String.intercalate "; " l)) ∧
  (r.processing_status = "Failed" →
    (∃ e, o.loadResult = .error e ∧
      r.processing_notes = some ("Failed to load document: " ++ e)) ∧
    r.factsFields = none ∧ r.summary = none ∧ r.risk_flags = none ∧
    r.developer_external_summary = none ∧ r.offtaker_external_summary = none)

/-- Correspondence between a record status and a task-cache status token. -/
def statusCorresponds (db cache : String) : Bool :=
  (db == "Completed" && cache == "completed") ||
  (db == "Partial" && cache == "partial") ||
  (db == "Failed" && cache == "error")

/-- The terminal task-cache status tokens. -/
def isTerminalCacheStatus (s : String) : Bool :=
  s == "completed" || s == "partial" || s == "error"

/-- Helper: on every run whose text extraction succeeds, the summarization
stage has already recorded a warning by the time the record status is
computed, so the finished record is `Partial` with the joined warning notes
and the task cache ends at `partial`. -/
theorem process_ok_status (o : StageOutcomes) (t : String)
    (h : o.loadResult = .ok t) :
    ∃ l, l ≠ [] ∧ (∀ x ∈ l, stageWarning x) ∧
      (process_document o).record.processing_status = "Partial" ∧
      (process_document o).record.processing_notes =
        some (String.intercalate "; " l) ∧
      (process_document o).task.status = "partial" := by
  obtain ⟨lr, er, sr, fd, fo⟩ := o
  simp only [StageOutcomes.loadResult] at h
  subst h
  cases er with
  | error e =>
    cases sr with
    | error e2 =>
      refine ⟨["Error extracting information: " ++ e,
        "Error generating summary: " ++ e2], by simp, ?_, rfl, rfl, rfl⟩
      intro x hx
      simp only [List.mem_cons, List.not_mem_nil, or_false] at hx
      rcases hx with rfl | rfl
      · exact Or.inl ⟨e, rfl⟩
      · exact Or.inr (Or.inl ⟨e2, rfl⟩)
    | ok ds =>
      refine ⟨["Error extracting information: " ++ e,
        "Error generating summary: " ++
          (squote ++ "DocumentSummary" ++ squote ++ " object has no attribute " ++
            squote ++ "content" ++ squote)], by simp, ?_, rfl, rfl, rfl⟩
      intro x hx
      simp only [List.mem_cons, List.not_mem_nil, or_false] at hx
      rcases hx with rfl | rfl
      · exact Or.inl ⟨e, rfl⟩
      · exact Or.inr (Or.inl ⟨_, rfl⟩)
  | ok pi =>
    cases hA : RiskFlagger.analyze_project (some pi) with
    | ok fl =>
      cases sr with
      | error e2 =>
        refine ⟨["Error generating summary: " ++ e2], by simp, ?_, ?_, ?_, ?_⟩
        · intro x hx
          simp only [List.mem_cons, List.not_mem_nil, or_false] at hx
          rcases hx with rfl
          exact Or.inr (Or.inl ⟨e2, rfl⟩)
        all_goals
          simp [process_document, riskStage, summaryStageErrs, Except.toOption, hA]
      | ok ds =>
        refine ⟨["Error generating summary: " ++
          (squote ++ "DocumentSummary" ++ squote ++ " object has no attribute " ++
            squote ++ "content" ++ squote)], by simp, ?_, ?_, ?_, ?_⟩
        · intro x hx
          simp only [List.mem_cons, List.not_mem_nil, or_false] at hx
          rcases hx with rfl
          exact Or.inr (Or.inl ⟨_, rfl⟩)
        all_goals
          simp [process_document, riskStage, summaryStageErrs, Except.toOption, hA]
    | error err =>
      cases sr with
      | error e2 =>
        refine ⟨["Error generating summary: " ++ e2,
          "Error analyzing risks: " ++ pyErrMessage err], by simp, ?_, ?_, ?_, ?_⟩
        · intro x hx
          simp only [List.mem_cons, List.not_mem_nil, or_false] at hx
          rcases hx with rfl | rfl
          · exact Or.inr (Or.inl ⟨e2, rfl⟩)
          · exact Or.inr (Or.inr (Or.inl ⟨_, rfl⟩))
        all_goals
          simp [process_document, riskStage, summaryStageErrs, Except.toOption, hA]
      | ok ds =>
        refine ⟨["Error generating summary: " ++
          (squote ++ "DocumentSummary" ++ squote ++ " object has no attribute " ++
            squote ++ "content" ++ squote),
          "Error analyzing risks: " ++ pyErrMessage err], by simp, ?_, ?_, ?_, ?_⟩
        · intro x hx
          simp only [List.mem_cons, List.not_mem_nil, or_false] at hx
          rcases hx with rfl | rfl
          · exact Or.inr (Or.inl ⟨_, rfl⟩)
          · exact Or.inr (Or.inr (Or.inl ⟨_, rfl⟩))
        all_goals
          simp [process_document, riskStage, summaryStageErrs, Except.toOption, hA]

/-! ## Claim C5 -/

/-- C5: when text extraction fails, the finished record is `Failed`, the
loader error is preserved inside the notes, and no facts, summary, or risk
flags are populated. -/
theorem c5_extraction_failure_failed_record (o : StageOutcomes) (e : String)
    (h : o.loadResult = .error e) :
    (process_document o).record.processing_status = "Failed" ∧
    (process_document o).record.processing_notes =
      some ("Failed to load document: " ++ e) ∧
    (process_document o).record.factsFields = none ∧
    (process_document o).record.summary = none ∧
    (process_document o).record.risk_flags = none := by
  obtain ⟨lr, er, sr, fd, fo⟩ := o
  simp only [StageOutcomes.loadResult] at h
  subst h
  exact ⟨rfl, rfl, rfl, rfl, rfl⟩

/-- Outcomes of a run whose text extraction fails on an unsupported type. -/
def oFail : StageOutcomes :=
  { loadResult := .error "Unsupported file type: .txt"
    extractResult := .ok {}
    summarizeResult := .ok {}
    fetchDev := .ok none
    fetchOff := .ok none }

/-- C5 witness: the theorem evaluated on a concrete failing load. -/
theorem c5_extraction_failure_witness :
    (process_document oFail).record.processing_status = "Failed" ∧
    (process_document oFail).record.processing_notes =
      some ("Failed to load document: " ++ "Unsupported file type: .txt") ∧
    (process_document oFail).record.factsFields = none ∧
    (process_document oFail).record.summary = none ∧
    (process_document oFail).record.risk_flags = none :=
  c5_extraction_failure_failed_record oFail "Unsupported file type: .txt" rfl

/-! ## Claim C2 -/

/-- Facts returned by a successful extraction with both party names
present (so both entity lookups are attempted). -/
def piC2 : ProjectInfo :=
  { developer_name := some "Acme Development LLC"
    purchaser_or_offtaker := some "Metro Utility Co" }

/-- Outcomes of a run where extraction and rule evaluation succeed, the
summarizer returns a summary object, and entity research fails for both
parties. -/
def oC2 : StageOutcomes :=
  { loadResult := .ok "Scanned PPA document text"
    extractResult := .ok piC2
    summarizeResult := .ok {}
    fetchDev := .error "search backend unreachable"
    fetchOff := .error "search backend unreachable" }

/-- C2: evaluation of the pipeline on the claimed scenario.  The record is
`Partial` with a non-empty flag list and absent external summaries as
claimed, but the summary is `None` (the orchestrator reads the
`content` attribute that `DocumentSummary` does not define, so the
summarization stage fails on every run) and the notes never mention the
research failure (status and notes are computed at line 78 of
`endpoints.py`, before the fetch error is appended at line 116), so the
claim fails on the code: a code bug, since the stage-isolation design and
the summarizer contract make the claimed behaviour the evident intent. -/
theorem c2_research_failure_record :
    (process_document oC2).record.processing_status = "Partial" ∧
    (process_document oC2).record.summary = none ∧
    (process_document oC2).record.processing_notes =
      some ("Error generating summary: " ++
        (squote ++ "DocumentSummary" ++ squote ++ " object has no attribute " ++
          squote ++ "content" ++ squote)) ∧
    listHasSub ((process_document oC2).record.processing_notes.getD "").toList
      ("Error fetching".toList) = false ∧
    (process_document oC2).record.risk_flags.getD [] ≠ [] ∧
    (process_document oC2).record.developer_external_summary = none ∧
    (process_document oC2).record.offtaker_external_summary = none ∧
    (process_document oC2).task.status = "partial" :=
  ⟨rfl, rfl, rfl, by decide, by decide, rfl, rfl, rfl⟩

/-! ## Claim C3 -/

/-- C3: on every finished record, status and notes are mutually consistent
in the sense of the claim.  The `Completed` case holds vacuously: the
summarization stage records a warning on every run (see C2), so a finished
record is never `Completed`; `Partial` records carry the joined non-empty
stage warnings, and `Failed` records carry the terminating load error with
no downstream stage fields populated. -/
theorem c3_status_notes_consistent (o : StageOutcomes) : recordConsistent o := by
  cases hl : o.loadResult with
  | error e =>
    obtain ⟨lr, er, sr, fd, fo⟩ := o
    simp only [StageOutcomes.loadResult] at hl
    subst hl
    refine ⟨?_, ?_, ?_⟩
    · intro hst
      simp [process_document] at hst
    · intro hst
      simp [process_document] at hst
    · intro _
      exact ⟨⟨e, rfl, rfl⟩, rfl, rfl, rfl, rfl, rfl⟩
  | ok t =>
    obtain ⟨l, hne, hw, hst, hnotes, -⟩ := process_ok_status o t hl
    refine ⟨?_, ?_, ?_⟩
    · intro hc
      rw [hst] at hc
      exact absurd hc (by decide)
    · intro _
      exact ⟨l, hne, hw, hnotes⟩
    · intro hf
      rw [hst] at hf
      exact absurd hf (by decide)

/-! ## Claim C8 -/

/-- C8: on every exit path the trace consists of the initial commit of the
`Processing` record, the non-terminal `processing` cache write, then the
commit of the final record, and only then the terminal cache write; and the
terminal cache status corresponds to the committed record status
(`Completed` with `completed`, `Partial` with `partial`, `Failed` with
`error` — the cache uses lowercase tokens for the same terminal states). -/
theorem c8_commit_precedes_terminal_cache (o : StageOutcomes) :
    (process_document o).trace =
      [Event.commitRecord {}, Event.setTask { status := "processing" },
       Event.commitRecord (process_document o).record,
       Event.setTask (process_document o).task] ∧
    isTerminalCacheStatus "processing" = false ∧
    isTerminalCacheStatus (process_document o).task.status = true ∧
    statusCorresponds (process_document o).record.processing_status
      (process_document o).task.status = true := by
  cases hl : o.loadResult with
  | error e =>
    obtain ⟨lr, er, sr, fd, fo⟩ := o
    simp only [StageOutcomes.loadResult] at hl
    subst hl
    exact ⟨rfl, by decide, rfl, rfl⟩
  | ok t =>
    obtain ⟨l, -, -, hst, -, htask⟩ := process_ok_status o t hl
    refine ⟨?_, by decide, ?_, ?_⟩
    · obtain ⟨lr, er, sr, fd, fo⟩ := o
      simp only [StageOutcomes.loadResult] at hl
      subst hl
      rfl
    · rw [htask]
      decide
    · rw [htask, hst]
      decide

/-! ## Helper lemmas for the parse-response claims -/

/-- Helper: `dropWhile` skips a leading block on which the predicate holds. -/
theorem dropWhile_all_append (p : Char → Bool) (l r : List Char)
    (h : ∀ c ∈ l, p c = true) :
    (l ++ r).dropWhile p = r.dropWhile p := by
  induction l with
  | nil => rfl
  | cons a t ih =>
    simp only [List.cons_append, List.dropWhile_cons, h a (List.mem_cons_self a t),
      if_true]
    exact ih (fun c hc => h c (List.mem_cons_of_mem a hc))

/-- Helper: `find?` over an append when the first part has no match. -/
theorem find?_append_of_none {α : Type} (p : α → Bool) (l1 l2 : List α)
    (h : l1.find? p = none) :
    (l1 ++ l2).find? p = l2.find? p := by
  induction l1 with
  | nil => rfl
  | cons a t ih =>
    have ha : p a = false := by
      have := List.find?_eq_none.mp h a (List.mem_cons_self a t)
      simpa using this
    have ht : t.find? p = none := by
      rw [List.find?_eq_none] at h ⊢
      exact fun x hx => h x (List.mem_cons_of_mem a hx)
    simp [List.find?_cons, ha, ih ht]

/-- Helper: `find?` over an append when the first part has a match. -/
theorem find?_append_of_some {α : Type} (p : α → Bool) (l1 l2 : List α)
    (x : α) (h : l1.find? p = some x) :
    (l1 ++ l2).find? p = some x := by
  induction l1 with
  | nil => exact absurd h (by simp)
  | cons a t ih =>
    cases ha : p a with
    | true =>
      rw [List.find?_cons_of_pos _ ha] at h
      simpa [List.find?_cons, ha] using h
    | false =>
      rw [List.find?_cons_of_neg _ (by simp [ha])] at h
      simpa [List.find?_cons, ha] using ih h

/-- Helper: looking up a key past an append whose left part lacks it. -/
theorem lookupKey_append_of_none (kvs more : List (String × Json)) (k : String)
    (h : lookupKey kvs k = none) :
    lookupKey (kvs ++ more) k = lookupKey more k := by
  unfold lookupKey at h ⊢
  rw [find?_append_of_none _ _ _ (Option.map_eq_none'.mp h)]

/-- Helper: `setdefault` on an absent key makes the lookup yield the
default. -/
theorem lookup_setDefault_same (kvs : List (String × Json)) (k : String)
    (v : Json) (h : lookupKey kvs k = none) :
    lookupKey (setDefaultKey kvs k v) k = some v := by
  unfold setDefaultKey
  rw [h]
  simp only [Option.isSome_none, Bool.false_eq_true, if_false]
  rw [lookupKey_append_of_none _ _ _ h]
  simp [lookupKey, List.find?]

/-- Helper: `setdefault` of one key does not change another lookup. -/
theorem lookup_setDefault_ne (kvs : List (String × Json)) (k2 : String)
    (v : Json) (k : String) (hne : k2 ≠ k) :
    lookupKey (setDefaultKey kvs k2 v) k = lookupKey kvs k := by
  unfold setDefaultKey
  by_cases hs : (lookupKey kvs k2).isSome = true
  · rw [if_pos hs]
  · rw [if_neg hs]
    cases hf : lookupKey kvs k with
    | none =>
      rw [lookupKey_append_of_none _ _ _ hf]
      have hb : (k2 == k) = false := by simp [hne]
      simp [lookupKey, List.find?, hb]
    | some j =>
      unfold lookupKey at hf ⊢
      cases hff : kvs.find? (fun kv => kv.1 == k) with
      | none => rw [hff] at hf; exact absurd hf (by simp)
      | some kv =>
        rw [hff] at hf
        rw [find?_append_of_some _ _ _ _ hff]
        exact hf

/-- Helper: after the four `setdefault` calls, an absent
`key_counterparties` key maps to the empty JSON array. -/
theorem lookup_defaults_counterparties (kvs : List (String × Json))
    (h : lookupKey kvs "key_counterparties" = none) :
    lookupKey (applyListDefaults kvs) "key_counterparties" = some (.arr []) := by
  unfold applyListDefaults
  rw [lookup_setDefault_ne _ _ _ _ (by decide),
    lookup_setDefault_ne _ _ _ _ (by decide),
    lookup_setDefault_ne _ _ _ _ (by decide),
    lookup_setDefault_same _ _ _ h]

/-- Helper: after the four `setdefault` calls, an absent
`key_permits_mentioned` key maps to the empty JSON array. -/
theorem lookup_defaults_permits (kvs : List (String × Json))
    (h : lookupKey kvs "key_permits_mentioned" = none) :
    lookupKey (applyListDefaults kvs) "key_permits_mentioned" = some (.arr []) := by
  unfold applyListDefaults
  rw [lookup_setDefault_ne _ _ _ _ (by decide),
    lookup_setDefault_ne _ _ _ _ (by decide),
    lookup_setDefault_same _ _ _ (by
      rw [lookup_setDefault_ne _ _ _ _ (by decide)]
      exact h)]

/-- Helper: after the four `setdefault` calls, an absent
`key_environmental_concerns` key maps to the empty JSON array. -/
theorem lookup_defaults_concerns (kvs : List (String × Json))
    (h : lookupKey kvs "key_environmental_concerns" = none) :
    lookupKey (applyListDefaults kvs) "key_environmental_concerns" =
      some (.arr []) := by
  unfold applyListDefaults
  rw [lookup_setDefault_ne _ _ _ _ (by decide),
    lookup_setDefault_same _ _ _ (by
      rw [lookup_setDefault_ne _ _ _ _ (by decide),
        lookup_setDefault_ne _ _ _ _ (by decide)]
      exact h)]

/-- Helper: after the four `setdefault` calls, an absent `key_project_dates`
key maps to the empty JSON array. -/
theorem lookup_defaults_dates (kvs : List (String × Json))
    (h : lookupKey kvs "key_project_dates" = none) :
    lookupKey (applyListDefaults kvs) "key_project_dates" = some (.arr []) := by
  unfold applyListDefaults
  rw [lookup_setDefault_same _ _ _ (by
    rw [lookup_setDefault_ne _ _ _ _ (by decide),
      lookup_setDefault_ne _ _ _ _ (by decide),
      lookup_setDefault_ne _ _ _ _ (by decide)]
    exact h)]

/-- Helper: a successful `cls(**data)` validation relates each list field of
the result to the validated value of its key. -/
theorem buildProjectInfo_listFields (kvs : List (String × Json))
    (p : ProjectInfo) (h : buildProjectInfo kvs = .ok p) :
    vListStr (lookupKey kvs "key_counterparties") = .ok p.key_counterparties ∧
    vListStr (lookupKey kvs "key_permits_mentioned") = .ok p.key_permits_mentioned ∧
    vListStr (lookupKey kvs "key_environmental_concerns") =
      .ok p.key_environmental_concerns ∧
    vListStr (lookupKey kvs "key_project_dates") = .ok p.key_project_dates := by
  unfold buildProjectInfo at h
  split at h
  · have hp := Except.ok.inj h
    subst hp
    exact ⟨by assumption, by assumption, by assumption, by assumption⟩
  · exact Except.noConfusion h

/-- Helper: the first brace-slice drops a brace-free leading block. -/
theorem sliceFromFirstBrace_append (pre t : List Char)
    (hpre : Char.ofNat 123 ∉ pre) :
    sliceFromFirstBrace (pre ++ Char.ofNat 123 :: t) = Char.ofNat 123 :: t := by
  unfold sliceFromFirstBrace
  rw [if_pos (List.mem_append_right pre (List.mem_cons_self _ t))]
  rw [dropWhile_all_append _ pre (Char.ofNat 123 :: t)
    (fun c hc => by simpa using ne_of_mem_of_not_mem hc hpre)]
  simp [List.dropWhile_cons]

/-- Helper: the last brace-slice drops a brace-free trailing block. -/
theorem sliceToLastBrace_append (obj post : List Char)
    (hpost : Char.ofNat 125 ∉ post)
    (hl : obj.getLast? = some (Char.ofNat 125)) :
    sliceToLastBrace (obj ++ post) = obj := by
  obtain ⟨s, hs⟩ : ∃ s, obj.reverse = Char.ofNat 125 :: s := by
    rw [← List.head?_reverse] at hl
    cases hrev : obj.reverse with
    | nil => rw [hrev] at hl; exact absurd hl (by simp)
    | cons a t =>
      rw [hrev] at hl
      simp only [List.head?] at hl
      exact ⟨t, by rw [Option.some.inj hl]⟩
  have hmem : Char.ofNat 125 ∈ obj ++ post := by
    have hm : Char.ofNat 125 ∈ obj.reverse := by rw [hs]; exact List.mem_cons_self _ s
    exact List.mem_append_left post (List.mem_reverse.mp hm)
  unfold sliceToLastBrace
  rw [if_pos hmem, List.reverse_append,
    dropWhile_all_append _ post.reverse obj.reverse
      (fun c hc => by simpa using ne_of_mem_of_not_mem (List.mem_reverse.mp hc) hpost),
    hs]
  simp only [List.dropWhile_cons, beq_self_eq_true, Bool.not_true, Bool.false_eq_true,
    if_false]
  rw [← hs, List.reverse_reverse]

/-- Helper: surrounding a brace-delimited block with brace-free extraneous
text does not change the preprocessed content. -/
theorem preprocessContent_append (pre obj post : List Char)
    (hpre : Char.ofNat 123 ∉ pre) (hpost : Char.ofNat 125 ∉ post)
    (hh : obj.head? = some (Char.ofNat 123))
    (hl : obj.getLast? = some (Char.ofNat 125)) :
    preprocessContent (pre ++ obj ++ post) = preprocessContent obj := by
  obtain ⟨t, rfl⟩ : ∃ t, obj = Char.ofNat 123 :: t := by
    cases obj with
    | nil => exact absurd hh (by simp)
    | cons a t =>
      simp only [List.head?] at hh
      exact ⟨t, by rw [Option.some.inj hh]⟩
  unfold preprocessContent
  rw [List.append_assoc, List.cons_append, sliceFromFirstBrace_append pre _ hpre,
    ← List.cons_append, sliceToLastBrace_append _ post hpost hl]
  have h1 : sliceFromFirstBrace (Char.ofNat 123 :: t) = Char.ofNat 123 :: t := by
    unfold sliceFromFirstBrace
    rw [if_pos (List.mem_cons_self _ t)]
    simp [List.dropWhile_cons]
  have h2 : sliceToLastBrace (Char.ofNat 123 :: t) = Char.ofNat 123 :: t := by
    have := sliceToLastBrace_append (Char.ofNat 123 :: t) [] (by simp) hl
    rwa [List.append_nil] at this
  rw [h1, h2]

/-! ## Claim C9 -/

/-- C9: `parse_response` isolates the outermost JSON object before parsing —
surrounding a brace-delimited object with extraneous text (no opening brace
before it, no closing brace after it) yields the same result as parsing the
object alone — and every list-typed field absent from the parsed object is
defaulted to the empty list, never null. -/
theorem c9_outermost_object_and_list_defaults :
    (∀ (jloads : List Char → Option Json) (pre obj post : List Char),
      Char.ofNat 123 ∉ pre → Char.ofNat 125 ∉ post →
      obj.head? = some (Char.ofNat 123) → obj.getLast? = some (Char.ofNat 125) →
      ProjectInfo.parse_response jloads (pre ++ obj ++ post) =
        ProjectInfo.parse_response jloads obj) ∧
    (∀ (jloads : List Char → Option Json) (content : List Char)
      (kvs : List (String × Json)),
      jloads (preprocessContent content) = some (Json.obj kvs) →
      lookupKey kvs "key_counterparties" = none →
      lookupKey kvs "key_permits_mentioned" = none →
      lookupKey kvs "key_environmental_concerns" = none →
      lookupKey kvs "key_project_dates" = none →
      (ProjectInfo.parse_response jloads content).key_counterparties = [] ∧
      (ProjectInfo.parse_response jloads content).key_permits_mentioned = [] ∧
      (ProjectInfo.parse_response jloads content).key_environmental_concerns = [] ∧
      (ProjectInfo.parse_response jloads content).key_project_dates = []) := by
  constructor
  · intro jl pre obj post h1 h2 h3 h4
    unfold ProjectInfo.parse_response
    rw [preprocessContent_append pre obj post h1 h2 h3 h4]
  · intro jl c kvs hj hk1 hk2 hk3 hk4
    have hres : ProjectInfo.parse_response jl c =
        (match buildProjectInfo (applyListDefaults kvs) with
          | .ok p => p
          | .error _ => {}) := by
      unfold ProjectInfo.parse_response
      rw [hj]
    rw [hres]
    cases hb : buildProjectInfo (applyListDefaults kvs) with
    | error u => exact ⟨rfl, rfl, rfl, rfl⟩
    | ok p =>
      obtain ⟨hc1, hc2, hc3, hc4⟩ := buildProjectInfo_listFields _ p hb
      rw [lookup_defaults_counterparties kvs hk1] at hc1
      rw [lookup_defaults_permits kvs hk2] at hc2
      rw [lookup_defaults_concerns kvs hk3] at hc3
      rw [lookup_defaults_dates kvs hk4] at hc4
      have e1 : p.key_counterparties = [] := by
        have h' : Except.ok (ε := Unit) ([] : List String) =
            Except.ok p.key_counterparties := by rw [← hc1]; rfl
        exact (Except.ok.inj h').symm
      have e2 : p.key_permits_mentioned = [] := by
        have h' : Except.ok (ε := Unit) ([] : List String) =
            Except.ok p.key_permits_mentioned := by rw [← hc2]; rfl
        exact (Except.ok.inj h').symm
      have e3 : p.key_environmental_concerns = [] := by
        have h' : Except.ok (ε := Unit) ([] : List String) =
            Except.ok p.key_environmental_concerns := by rw [← hc3]; rfl
        exact (Except.ok.inj h').symm
      have e4 : p.key_project_dates = [] := by
        have h' : Except.ok (ε := Unit) ([] : List String) =
            Except.ok p.key_project_dates := by rw [← hc4]; rfl
        exact (Except.ok.inj h').symm
      exact ⟨e1, e2, e3, e4⟩

/-- C9 witness: both parts evaluated on concrete inputs (the two-character
object between an `x` and a `y`, and a reader returning the empty object). -/
theorem c9_outermost_object_witness :
    (ProjectInfo.parse_response (fun _ => none)
        (['x'] ++ [Char.ofNat 123, Char.ofNat 125] ++ ['y']) =
      ProjectInfo.parse_response (fun _ => none)
        [Char.ofNat 123, Char.ofNat 125]) ∧
    ((ProjectInfo.parse_response (fun _ => some (Json.obj []))
        [Char.ofNat 123, Char.ofNat 125]).key_counterparties = [] ∧
      (ProjectInfo.parse_response (fun _ => some (Json.obj []))
        [Char.ofNat 123, Char.ofNat 125]).key_permits_mentioned = [] ∧
      (ProjectInfo.parse_response (fun _ => some (Json.obj []))
        [Char.ofNat 123, Char.ofNat 125]).key_environmental_concerns = [] ∧
      (ProjectInfo.parse_response (fun _ => some (Json.obj []))
        [Char.ofNat 123, Char.ofNat 125]).key_project_dates = []) :=
  ⟨c9_outermost_object_and_list_defaults.1 (fun _ => none) ['x'] _ ['y']
      (by decide) (by decide) rfl rfl,
    c9_outermost_object_and_list_defaults.2 (fun _ => some (Json.obj [])) _ []
      rfl rfl rfl rfl rfl⟩

/-! ## Claim C10 -/

/-- C10: `parse_response` is total — it returns a `ProjectInfo` on every
input (the model maps every failure branch of the `try` to the default) —
and whenever the reader yields no JSON object, a non-object value, or an
object that fails validation, the result is the default `ProjectInfo()`
whose scalar fields are all `None` and whose list fields are all empty. -/
theorem c10_parse_response_total_default
    (jloads : List Char → Option Json) (content : List Char) :
    ((∀ kvs, jloads (preprocessContent content) = some (Json.obj kvs) →
        buildProjectInfo (applyListDefaults kvs) = .error ()) →
      ProjectInfo.parse_response jloads content = {}) ∧
    (({} : ProjectInfo).project_name = none ∧
      ({} : ProjectInfo).project_type = none ∧
      ({} : ProjectInfo).capacity_mw = none ∧
      ({} : ProjectInfo).location_address = none ∧
      ({} : ProjectInfo).project_area_size = none ∧
      ({} : ProjectInfo).technology_details = none ∧
      ({} : ProjectInfo).number_of_units = none ∧
      ({} : ProjectInfo).developer_name = none ∧
      ({} : ProjectInfo).purchaser_or_offtaker = none ∧
      ({} : ProjectInfo).seller_or_provider = none ∧
      ({} : ProjectInfo).key_counterparties = [] ∧
      ({} : ProjectInfo).agreement_type = none ∧
      ({} : ProjectInfo).agreement_effective_date = none ∧
      ({} : ProjectInfo).term_length_years = none ∧
      ({} : ProjectInfo).contract_price_details = none ∧
      ({} : ProjectInfo).guaranteed_output_or_availability = none ∧
      ({} : ProjectInfo).liquidated_damages_mention = none ∧
      ({} : ProjectInfo).delivery_point = none ∧
      ({} : ProjectInfo).environmental_attributes_ownership = none ∧
      ({} : ProjectInfo).lead_regulatory_agency = none ∧
      ({} : ProjectInfo).assessment_type = none ∧
      ({} : ProjectInfo).key_permits_mentioned = [] ∧
      ({} : ProjectInfo).key_environmental_concerns = [] ∧
      ({} : ProjectInfo).mitigation_mentioned = none ∧
      ({} : ProjectInfo).key_project_dates = []) := by
  constructor
  · intro h
    unfold ProjectInfo.parse_response
    cases hj : jloads (preprocessContent content) with
    | none => rfl
    | some j =>
      cases j with
      | obj kvs =>
        show (match buildProjectInfo (applyListDefaults kvs) with
          | .ok p => p
          | .error _ => ({} : ProjectInfo)) = {}
        rw [h kvs hj]
      | null => rfl
      | bool b => rfl
      | num q => rfl
      | str s => rfl
      | arr es => rfl
  · exact ⟨rfl, rfl, rfl, rfl, rfl, rfl, rfl, rfl, rfl, rfl, rfl, rfl, rfl,
      rfl, rfl, rfl, rfl, rfl, rfl, rfl, rfl, rfl, rfl, rfl, rfl⟩

/-- C10 witness: the theorem evaluated on a reader that finds no JSON in a
concrete response. -/
theorem c10_parse_response_witness :
    ProjectInfo.parse_response (fun _ => none)
      ("plain text response with no object".toList) = {} :=
  (c10_parse_response_total_default (fun _ => none) _).1
    (fun _ h => Option.noConfusion h)
